import Mathlib

/-!
Verification of the guard-paged page-cache allocator
(`pcache-malloc` in `src/objc/source/core/handle/AbstractHandle.cpp`).

The C code is shallowly embedded:

* Addresses are `Nat`; the null pointer is address `0`.
* Byte-addressable memory is `Mem := Nat → Nat` (each cell holds one byte).
  A `size_t` store (`*(size_t *) p = v`) writes 8 bytes little-endian, the
  layout of the 64-bit Android/Linux targets this code compiles for.
* The underlying dlmalloc `mspace` (whose `malloc.c` is third-party and not
  part of this repository; only its configuration header is) is abstracted
  by an oracle deciding, per request size, whether the allocation succeeds
  and at which base address.  `mspace_calloc` additionally zero-fills the
  returned block; `mspace_malloc` leaves memory unchanged (contents of the
  returned block are indeterminate).
* The virtual-memory layer (`mmap`/`mprotect`/`munmap`) is a map from
  addresses to a mapped flag and a protection, with an OS oracle deciding
  whether each syscall succeeds.
* `size_t` arithmetic is `Nat` with an explicit `% 2^64` where the C code
  can wrap; the `(int)` cast in `pcache_memsize` is modelled by `toInt32`
  (32-bit `int` on the target ABIs).
-/

/-- Byte width of the machine word / `size_t` on the 64-bit targets. -/
def sizeofSizeT : Nat := 8

/-- `#define ROUND8(x) (((x)+7)&~7)` operating on `size_t`.  On a 64-bit
`size_t`, adding 7 wraps modulo `2^64` and masking with `~7` clears the low
three bits, i.e. rounds down to a multiple of 8. -/
def ROUND8 (x : Nat) : Nat := (x + 7) % 2 ^ 64 / 8 * 8

/-- Byte-addressable memory: value of the byte stored at each address. -/
def Mem : Type := Nat → Nat

/-- Effect of `*(size_t *) a = v`: stores the 8 bytes of `v` (little-endian)
at addresses `a, a+1, ..., a+7`. -/
def writeSizeT (m : Mem) (a : Nat) (v : Nat) : Mem :=
  fun x =>
    if x = a then v % 256
    else if x = a + 1 then v / 2 ^ 8 % 256
    else if x = a + 2 then v / 2 ^ 16 % 256
    else if x = a + 3 then v / 2 ^ 24 % 256
    else if x = a + 4 then v / 2 ^ 32 % 256
    else if x = a + 5 then v / 2 ^ 40 % 256
    else if x = a + 6 then v / 2 ^ 48 % 256
    else if x = a + 7 then v / 2 ^ 56 % 256
    else m x

/-- Value of `*(size_t *) a`: the 8 bytes at `a..a+7` read little-endian. -/
def readSizeT (m : Mem) (a : Nat) : Nat :=
  m a + m (a + 1) * 2 ^ 8 + m (a + 2) * 2 ^ 16 + m (a + 3) * 2 ^ 24 +
    m (a + 4) * 2 ^ 32 + m (a + 5) * 2 ^ 40 + m (a + 6) * 2 ^ 48 +
    m (a + 7) * 2 ^ 56

/-- Zero-fill of the byte range `[a, a + len)` (effect of a successful
`mspace_calloc` on the returned block). -/
def zeroRange (m : Mem) (a len : Nat) : Mem :=
  fun x => if a ≤ x ∧ x < a + len then 0 else m x

/-- The C `(int)` cast of an unsigned 64-bit value: truncate to 32 bits and
reinterpret as two's-complement (`int` is 32-bit on the target ABIs). -/
def toInt32 (n : Nat) : Int :=
  if n % 2 ^ 32 < 2 ^ 31 then (n % 2 ^ 32 : Int) else (n % 2 ^ 32 : Int) - 2 ^ 32

/-- Abstract model of the dlmalloc `mspace` backing `pcache_msp`: for each
requested size, either the base address of the block the algorithm hands out
(`some base`, a non-null pointer) or `none` for a NULL return (arena
exhausted / growth failing).  `allocZero` is the same decision for
`mspace_calloc`. -/
structure MSpace where
  alloc : Nat → Option Nat
  allocZero : Nat → Option Nat

/-- `pcache_malloc(sz)` from the source:

    size_t padding = ROUND8(sizeof(size_t));
    uint8_t *ptr = (uint8_t *) mspace_malloc(pcache_msp, sz + padding);
    *(size_t *) ptr = sz + padding;
    return ptr + padding;

There is no NULL check: the header store and the `ptr + padding` return
happen unconditionally.  A NULL result is address 0, so on failure the
header is written at address 0 and the returned value is `padding`, not
NULL.  Returns the pointer handed to the caller and the updated memory. -/
def pcache_malloc (msp : MSpace) (m : Mem) (sz : Nat) : Nat × Mem :=
  match msp.alloc ((sz + ROUND8 sizeofSizeT) % 2 ^ 64) with
  | some base =>
    (base + ROUND8 sizeofSizeT,
      writeSizeT m base ((sz + ROUND8 sizeofSizeT) % 2 ^ 64))
  | none =>
    (0 + ROUND8 sizeofSizeT,
      writeSizeT m 0 ((sz + ROUND8 sizeofSizeT) % 2 ^ 64))

/-- `pcache_malloc_zero(sz)` from the source: identical to `pcache_malloc`
except the underlying call is `mspace_calloc(pcache_msp, sz + padding, 1)`,
which zero-fills the block it returns before the header store.  On a NULL
result no block is zeroed and the header store hits address 0, exactly as in
`pcache_malloc`. -/
def pcache_malloc_zero (msp : MSpace) (m : Mem) (sz : Nat) : Nat × Mem :=
  match msp.allocZero ((sz + ROUND8 sizeofSizeT) % 2 ^ 64) with
  | some base =>
    (base + ROUND8 sizeofSizeT,
      writeSizeT (zeroRange m base ((sz + ROUND8 sizeofSizeT) % 2 ^ 64)) base
        ((sz + ROUND8 sizeofSizeT) % 2 ^ 64))
  | none =>
    (0 + ROUND8 sizeofSizeT,
      writeSizeT m 0 ((sz + ROUND8 sizeofSizeT) % 2 ^ 64))

/-- `pcache_free(p)` from the source:

    if (!p) return;
    size_t padding = ROUND8(sizeof(size_t));
    mspace_free(pcache_msp, (uint8_t *) p - padding);

The observable effect is which pointer (if any) is handed to the underlying
`mspace_free`: `none` models the early return on NULL. -/
def pcache_free (p : Nat) : Option Nat :=
  if p = 0 then none else some (p - ROUND8 sizeofSizeT)

/-- `pcache_memsize(p)` from the source:

    if (!p) return 0;
    size_t padding = ROUND8(sizeof(size_t));
    return (int) *(size_t *) ((uint8_t *) p - padding);
-/
def pcache_memsize (m : Mem) (p : Nat) : Int :=
  if p = 0 then 0 else toInt32 (readSizeT m (p - ROUND8 sizeofSizeT))

/-- The padding/header size is 8 bytes: `ROUND8(sizeof(size_t)) = 8`. -/
theorem ROUND8_sizeofSizeT : ROUND8 sizeofSizeT = 8 := by decide

/-- Reading back a `size_t` just stored at the same address yields the
stored value reduced modulo `2^64`. -/
theorem readSizeT_writeSizeT (m : Mem) (a v : Nat) :
    readSizeT (writeSizeT m a v) a = v % 2 ^ 64 := by
  simp only [readSizeT, writeSizeT]
  norm_num
  omega

/-- Bytes outside `[a, a+8)` are untouched by a `size_t` store at `a`. -/
theorem writeSizeT_outside (m : Mem) (a v x : Nat) (hx : ¬ (a ≤ x ∧ x < a + 8)) :
    writeSizeT m a v x = m x := by
  simp only [writeSizeT]
  split_ifs <;> omega

/-! ### Virtual-memory model for the guarded arena (`mmap_impl`/`munmap_impl`) -/

/-- Page protection: `PROT_NONE` versus `PROT_READ | PROT_WRITE` (the only
two protections this code ever requests). -/
inductive Prot where
  | noAccess : Prot
  | readWrite : Prot
deriving DecidableEq

/-- State of the process's virtual address space: which byte addresses are
mapped, and their protection. -/
structure VMem where
  mapped : Nat → Bool
  prot : Nat → Prot

/-- `getpagesize()`: 4096 bytes on the Android/Linux targets. -/
def pageSize : Nat := 4096

/-- Effect of a successful `mmap(base, len, PROT_NONE, MAP_PRIVATE |
MAP_ANONYMOUS)`: the range `[base, base + len)` becomes mapped with no
access. -/
def vmMap (vm : VMem) (base len : Nat) : VMem where
  mapped := fun x => if base ≤ x ∧ x < base + len then true else vm.mapped x
  prot := fun x => if base ≤ x ∧ x < base + len then .noAccess else vm.prot x

/-- Effect of a successful `mprotect(a, len, p)`. -/
def vmProtect (vm : VMem) (a len : Nat) (p : Prot) : VMem where
  mapped := vm.mapped
  prot := fun x => if a ≤ x ∧ x < a + len then p else vm.prot x

/-- Effect of `munmap(a, len)`: the range is no longer mapped (an unmapped
page has no meaningful protection, recorded as `noAccess`). -/
def vmUnmap (vm : VMem) (a len : Nat) : VMem where
  mapped := fun x => if a ≤ x ∧ x < a + len then false else vm.mapped x
  prot := fun x => if a ≤ x ∧ x < a + len then .noAccess else vm.prot x

/-- OS oracle for the two fallible syscalls `mmap_impl` makes: `mmapResult
len` is the base address chosen by `mmap(NULL, len, ...)`, or `none` for
`MAP_FAILED`; `mprotectOk a len` tells whether `mprotect(a, len, ...)`
returns 0. -/
structure OS where
  mmapResult : Nat → Option Nat
  mprotectOk : Nat → Nat → Bool

/-- `mmap_impl(sz)` from the source:

    size_t pageSize = getpagesize();
    uint8_t *base = mmap(NULL, sz + pageSize * 2, PROT_NONE,
                         MAP_PRIVATE | MAP_ANONYMOUS, -1, 0);
    if (base == MAP_FAILED) goto failure;
    if (mprotect(base + pageSize, sz, PROT_READ | PROT_WRITE) != 0)
        goto failure;
    /* prctl region labels: Android-only diagnostics, no memory effect */
    return base + pageSize;
    failure:
    if (base != MAP_FAILED) munmap(base, sz + pageSize * 2);
    return MAP_FAILED;

The length `sz + pageSize * 2` is computed in `size_t`, hence the `% 2^64`.
`none` models a `MAP_FAILED` return.  Returns the result pointer and the
updated address space. -/
def mmap_impl (os : OS) (vm : VMem) (sz : Nat) : Option Nat × VMem :=
  match os.mmapResult ((sz + pageSize * 2) % 2 ^ 64) with
  | none => (none, vm)
  | some base =>
    let vm1 := vmMap vm base ((sz + pageSize * 2) % 2 ^ 64)
    if os.mprotectOk (base + pageSize) sz then
      (some (base + pageSize), vmProtect vm1 (base + pageSize) sz .readWrite)
    else
      (none, vmUnmap vm1 base ((sz + pageSize * 2) % 2 ^ 64))

/-- `munmap_impl(addr, sz)` from the source:

    size_t pageSize = getpagesize();
    return munmap((uint8_t *) addr - pageSize, sz + pageSize * 2);

The `int` returned by `munmap` is passed through and not modelled; the
effect on the address space is what the claims are about. -/
def munmap_impl (vm : VMem) (addr sz : Nat) : VMem :=
  vmUnmap vm (addr - pageSize) ((sz + pageSize * 2) % 2 ^ 64)

/-! ### Claims about the guarded arena -/

theorem mmap_impl_none (os : OS) (vm : VMem) (sz : Nat)
    (hm : os.mmapResult ((sz + pageSize * 2) % 2 ^ 64) = none) :
    mmap_impl os vm sz = (none, vm) := by
  unfold mmap_impl
  rw [hm]

theorem mmap_impl_some (os : OS) (vm : VMem) (sz base : Nat)
    (hm : os.mmapResult ((sz + pageSize * 2) % 2 ^ 64) = some base) :
    mmap_impl os vm sz =
      if os.mprotectOk (base + pageSize) sz then
        (some (base + pageSize),
          vmProtect (vmMap vm base ((sz + pageSize * 2) % 2 ^ 64))
            (base + pageSize) sz Prot.readWrite)
      else
        (none,
          vmUnmap (vmMap vm base ((sz + pageSize * 2) % 2 ^ 64)) base
            ((sz + pageSize * 2) % 2 ^ 64)) := by
  unfold mmap_impl
  rw [hm]

theorem vmMap_mapped (vm : VMem) (b l x : Nat) :
    (vmMap vm b l).mapped x
      = if b ≤ x ∧ x < b + l then true else vm.mapped x := rfl

theorem vmMap_prot (vm : VMem) (b l x : Nat) :
    (vmMap vm b l).prot x
      = if b ≤ x ∧ x < b + l then Prot.noAccess else vm.prot x := rfl

theorem vmProtect_mapped (vm : VMem) (a l : Nat) (p : Prot) (x : Nat) :
    (vmProtect vm a l p).mapped x = vm.mapped x := rfl

theorem vmProtect_prot (vm : VMem) (a l : Nat) (p : Prot) (x : Nat) :
    (vmProtect vm a l p).prot x
      = if a ≤ x ∧ x < a + l then p else vm.prot x := rfl

theorem vmUnmap_mapped (vm : VMem) (a l x : Nat) :
    (vmUnmap vm a l).mapped x
      = if a ≤ x ∧ x < a + l then false else vm.mapped x := rfl

theorem vmUnmap_prot (vm : VMem) (a l x : Nat) :
    (vmUnmap vm a l).prot x
      = if a ≤ x ∧ x < a + l then Prot.noAccess else vm.prot x := rfl

/-- C3: a successful `mmap_impl(sz)` maps `sz + 2*pageSize` bytes of
non-accessible space, makes exactly the middle `sz` bytes read/write, and
returns the base of that usable middle region, one page past the mapping
base: every byte of the middle region is mapped read/write and every byte of
the two flanking guard pages is mapped with no access, so the usable region
is exactly the requested size. -/
theorem C3_reserve_success (os : OS) (vm : VMem) (sz base x : Nat)
    (hov : sz + pageSize * 2 < 2 ^ 64)
    (hm : os.mmapResult ((sz + pageSize * 2) % 2 ^ 64) = some base)
    (hp : os.mprotectOk (base + pageSize) sz = true) :
    (mmap_impl os vm sz).1 = some (base + pageSize) ∧
    (base + pageSize ≤ x ∧ x < base + pageSize + sz →
      (mmap_impl os vm sz).2.mapped x = true ∧
      (mmap_impl os vm sz).2.prot x = Prot.readWrite) ∧
    ((base ≤ x ∧ x < base + pageSize) ∨
        (base + pageSize + sz ≤ x ∧ x < base + sz + pageSize * 2) →
      (mmap_impl os vm sz).2.mapped x = true ∧
      (mmap_impl os vm sz).2.prot x = Prot.noAccess) := by
  have hmod : (sz + pageSize * 2) % 2 ^ 64 = sz + pageSize * 2 :=
    Nat.mod_eq_of_lt hov
  rw [mmap_impl_some os vm sz base hm, if_pos hp]
  refine ⟨rfl, fun h => ?_, fun h => ?_⟩ <;>
    exact ⟨by
        simp only [vmProtect_mapped, vmMap_mapped, hmod]
        split_ifs <;> first | rfl | (exfalso; omega),
      by
        simp only [vmProtect_prot, vmMap_prot, hmod]
        split_ifs <;> first | rfl | (exfalso; omega)⟩

/-- C4: `mmap_impl` is atomic on failure: when the initial `mmap` fails it
returns the failure sentinel with the address space unchanged, and when the
inner `mprotect` fails the whole `sz + 2*pageSize` reservation (guards
included) is unmapped before the sentinel is returned, leaving no byte of it
mapped and every other address untouched. -/
theorem C4_reserve_failure_atomic (os : OS) (vm : VMem) (sz base x : Nat) :
    (os.mmapResult ((sz + pageSize * 2) % 2 ^ 64) = none →
      mmap_impl os vm sz = (none, vm)) ∧
    (os.mmapResult ((sz + pageSize * 2) % 2 ^ 64) = some base →
      os.mprotectOk (base + pageSize) sz = false →
      (mmap_impl os vm sz).1 = none ∧
      (base ≤ x ∧ x < base + (sz + pageSize * 2) % 2 ^ 64 →
        (mmap_impl os vm sz).2.mapped x = false) ∧
      (¬ (base ≤ x ∧ x < base + (sz + pageSize * 2) % 2 ^ 64) →
        (mmap_impl os vm sz).2.mapped x = vm.mapped x ∧
        (mmap_impl os vm sz).2.prot x = vm.prot x)) := by
  constructor
  · intro h
    exact mmap_impl_none os vm sz h
  · intro h1 h2
    have hnp : ¬ os.mprotectOk (base + pageSize) sz = true := by
      rw [h2]
      exact Bool.false_ne_true
    rw [mmap_impl_some os vm sz base h1, if_neg hnp]
    refine ⟨rfl, fun h => ?_, fun h => ?_⟩
    · simp only [vmUnmap_mapped, vmMap_mapped]
      split_ifs <;> first | rfl | (exfalso; omega)
    · exact ⟨by
          simp only [vmUnmap_mapped, vmMap_mapped]
          split_ifs <;> first | rfl | (exfalso; omega),
        by
          simp only [vmUnmap_prot, vmMap_prot]
          split_ifs <;> first | rfl | (exfalso; omega)⟩

/-- C5: after a successful `mmap_impl(sz)` returning the usable address
`a = base + pageSize`, the matching `munmap_impl(a, sz)` unmaps exactly the
`sz + 2*pageSize` region anchored one page before `a` — the full region the
reserve mapped, usable part and both guards — so the round trip leaves every
address in that region unmapped and every address outside it exactly as it
was before the reserve. -/
theorem C5_release_roundtrip (os : OS) (vm : VMem) (sz base x : Nat)
    (hov : sz + pageSize * 2 < 2 ^ 64)
    (hm : os.mmapResult ((sz + pageSize * 2) % 2 ^ 64) = some base)
    (hp : os.mprotectOk (base + pageSize) sz = true) :
    (mmap_impl os vm sz).1 = some (base + pageSize) ∧
    (base ≤ x ∧ x < base + sz + pageSize * 2 →
      (munmap_impl (mmap_impl os vm sz).2 (base + pageSize) sz).mapped x
        = false) ∧
    (¬ (base ≤ x ∧ x < base + sz + pageSize * 2) →
      (munmap_impl (mmap_impl os vm sz).2 (base + pageSize) sz).mapped x
          = vm.mapped x ∧
      (munmap_impl (mmap_impl os vm sz).2 (base + pageSize) sz).prot x
          = vm.prot x) := by
  have hmod : (sz + pageSize * 2) % 2 ^ 64 = sz + pageSize * 2 :=
    Nat.mod_eq_of_lt hov
  rw [mmap_impl_some os vm sz base hm, if_pos hp]
  have hsub : base + pageSize - pageSize = base := by omega
  refine ⟨rfl, fun h => ?_, fun h => ?_⟩
  · simp only [munmap_impl, vmUnmap_mapped, vmProtect_mapped, vmMap_mapped,
      hmod, hsub]
    split_ifs <;> first | rfl | (exfalso; omega)
  · exact ⟨by
        simp only [munmap_impl, vmUnmap_mapped, vmProtect_mapped, vmMap_mapped,
          hmod, hsub]
        split_ifs <;> first | rfl | (exfalso; omega),
      by
        simp only [munmap_impl, vmUnmap_prot, vmProtect_prot, vmMap_prot,
          hmod, hsub]
        split_ifs <;> first | rfl | (exfalso; omega)⟩

/-! ### Claims about the public allocation interface -/

theorem pcache_malloc_eq_some (msp : MSpace) (m : Mem) (sz base : Nat)
    (h : msp.alloc ((sz + ROUND8 sizeofSizeT) % 2 ^ 64) = some base) :
    pcache_malloc msp m sz =
      (base + ROUND8 sizeofSizeT,
        writeSizeT m base ((sz + ROUND8 sizeofSizeT) % 2 ^ 64)) := by
  unfold pcache_malloc
  rw [h]

theorem pcache_malloc_zero_eq_some (msp : MSpace) (m : Mem) (sz base : Nat)
    (h : msp.allocZero ((sz + ROUND8 sizeofSizeT) % 2 ^ 64) = some base) :
    pcache_malloc_zero msp m sz =
      (base + ROUND8 sizeofSizeT,
        writeSizeT (zeroRange m base ((sz + ROUND8 sizeofSizeT) % 2 ^ 64)) base
          ((sz + ROUND8 sizeofSizeT) % 2 ^ 64)) := by
  unfold pcache_malloc_zero
  rw [h]

/-- An `mspace` whose algorithm always hands out the block at address 4096,
modelling a successful underlying allocation. -/
def mspFixed : MSpace where
  alloc := fun _ => some 4096
  allocZero := fun _ => some 4096

/-- An exhausted `mspace`: every request fails (NULL return), modelling a
full backing arena with growth disabled or failing. -/
def mspNone : MSpace where
  alloc := fun _ => none
  allocZero := fun _ => none

/-- All-zero initial memory contents. -/
def mem0 : Mem := fun _ => 0

/-- Memory whose every byte initially holds 7 (so zero-filling is
observable). -/
def mem7 : Mem := fun _ => 7

/-- C1: the claim is the spec's failure policy, and the code violates it.
When the underlying algorithm cannot satisfy the request (`mspace_malloc` /
`mspace_calloc` return NULL), `pcache_malloc` and `pcache_malloc_zero` do
not return the failure sentinel: lacking any NULL check, they store the
size header through the NULL pointer (address 0 — a crash on a real target)
and return `NULL + padding` = address 8, a non-null, invalid pointer.  This
theorem evaluates the code at the failing input `sz = 1024` with an
exhausted arena: the result is 8, not the sentinel 0, and the header bytes
at address 0 hold `1024 + 8`. -/
theorem C1_exhausted_alloc_misbehaves :
    (pcache_malloc mspNone mem0 1024).1 = 8 ∧
    (pcache_malloc mspNone mem0 1024).1 ≠ 0 ∧
    readSizeT (pcache_malloc mspNone mem0 1024).2 0 = 1032 ∧
    (pcache_malloc_zero mspNone mem0 1024).1 = 8 ∧
    (pcache_malloc_zero mspNone mem0 1024).1 ≠ 0 ∧
    readSizeT (pcache_malloc_zero mspNone mem0 1024).2 0 = 1032 := by
  decide

/-- C2 (amended): for every size `sz` whose recorded size `sz + header_size`
fits in a C `int`, a successful `pcache_malloc(sz)` computes the header size
as `ROUND8(sizeof(size_t))`, requests `sz + header_size` from the underlying
allocator (the hypothesis is about exactly that request), stores
`sz + header_size` in the header slot at the underlying base, returns
`base + header_size`, and `pcache_memsize` of the returned pointer minus the
header size is `sz`.  The fits-in-`int` bound is forced by the `(int)` cast
in `pcache_memsize` (see the counterexample and C10). -/
theorem C2_alloc_header_contract (msp : MSpace) (m : Mem) (sz base : Nat)
    (hsucc : msp.alloc ((sz + ROUND8 sizeofSizeT) % 2 ^ 64) = some base)
    (hfit : sz + ROUND8 sizeofSizeT < 2 ^ 31) :
    (pcache_malloc msp m sz).1 = base + ROUND8 sizeofSizeT ∧
    readSizeT (pcache_malloc msp m sz).2 base = sz + ROUND8 sizeofSizeT ∧
    pcache_memsize (pcache_malloc msp m sz).2 (pcache_malloc msp m sz).1
        - ROUND8 sizeofSizeT = (sz : Int) := by
  rw [pcache_malloc_eq_some msp m sz base hsucc]
  rw [ROUND8_sizeofSizeT] at hsucc hfit ⊢
  have hmod : (sz + 8) % 2 ^ 64 = sz + 8 := Nat.mod_eq_of_lt (by omega)
  rw [hmod]
  refine ⟨rfl, ?_, ?_⟩
  · rw [readSizeT_writeSizeT]
    omega
  · simp only [pcache_memsize, toInt32, ROUND8_sizeofSizeT]
    have hb : ¬ base + 8 = 0 := by omega
    rw [if_neg hb]
    have hb8 : base + 8 - 8 = base := by omega
    rw [hb8, readSizeT_writeSizeT]
    have h32 : (sz + 8) % 2 ^ 64 % 2 ^ 32 = sz + 8 := by omega
    rw [h32, if_pos (by omega)]
    push_cast
    omega

/-- C2 as stated is false: it quantifies over every size `s`, but at
`s = 2^31` (an allocation the underlying 64-bit allocator can satisfy) the
`(int)` cast in `pcache_memsize` wraps the recorded size `2^31 + 8` to a
negative value, so `pcache_memsize(p) − header_size ≠ s`. -/
theorem C2_counterexample :
    mspFixed.alloc ((2 ^ 31 + ROUND8 sizeofSizeT) % 2 ^ 64) = some 4096 ∧
    ¬ (pcache_memsize (pcache_malloc mspFixed mem0 (2 ^ 31)).2
          (pcache_malloc mspFixed mem0 (2 ^ 31)).1 - ROUND8 sizeofSizeT
        = ((2 ^ 31 : Nat) : Int)) := by
  constructor
  · rfl
  · decide

/-- Witness for C2 at `sz = 16`, `base = 4096`: the returned pointer is
4104, the header at 4096 stores 24, and the size query minus the header
size gives back 16. -/
theorem C2_alloc_header_contract_witness :
    (pcache_malloc mspFixed mem0 16).1 = 4096 + ROUND8 sizeofSizeT ∧
    readSizeT (pcache_malloc mspFixed mem0 16).2 4096 = 16 + ROUND8 sizeofSizeT ∧
    pcache_memsize (pcache_malloc mspFixed mem0 16).2
        (pcache_malloc mspFixed mem0 16).1 - ROUND8 sizeofSizeT = (16 : Int) :=
  C2_alloc_header_contract mspFixed mem0 16 4096 rfl (by decide)

/-- C6: a successful `pcache_malloc_zero(sz)` zero-fills the full
`sz + header_size` underlying block (the `mspace_calloc` effect) before the
header slot is overwritten with `sz + header_size`, so after the call every
user-visible byte past the header — byte `i` of the returned pointer for
each `i < sz` — reads back as zero, while the header slot itself holds the
recorded size. -/
theorem C6_alloc_zeroed (msp : MSpace) (m : Mem) (sz base i : Nat)
    (hsucc : msp.allocZero ((sz + ROUND8 sizeofSizeT) % 2 ^ 64) = some base)
    (hov : sz + ROUND8 sizeofSizeT < 2 ^ 64)
    (hi : i < sz) :
    (pcache_malloc_zero msp m sz).2 ((pcache_malloc_zero msp m sz).1 + i) = 0 ∧
    readSizeT (pcache_malloc_zero msp m sz).2 base
      = sz + ROUND8 sizeofSizeT := by
  rw [pcache_malloc_zero_eq_some msp m sz base hsucc]
  rw [ROUND8_sizeofSizeT] at hov ⊢
  have hmod : (sz + 8) % 2 ^ 64 = sz + 8 := Nat.mod_eq_of_lt hov
  rw [hmod]
  constructor
  · show writeSizeT (zeroRange m base (sz + 8)) base (sz + 8) (base + 8 + i) = 0
    rw [writeSizeT_outside (zeroRange m base (sz + 8)) base (sz + 8)
      (base + 8 + i) (by omega)]
    simp only [zeroRange]
    split_ifs <;> first | rfl | (exfalso; omega)
  · show readSizeT (writeSizeT (zeroRange m base (sz + 8)) base (sz + 8)) base
      = sz + 8
    rw [readSizeT_writeSizeT]
    omega

/-- Witness for C6 at `sz = 16`, `base = 4096`, byte `i = 3`, over memory
initially holding 7 in every byte: byte 3 of the returned pointer is 0 and
the header stores 24. -/
theorem C6_alloc_zeroed_witness :
    (pcache_malloc_zero mspFixed mem7 16).2
        ((pcache_malloc_zero mspFixed mem7 16).1 + 3) = 0 ∧
    readSizeT (pcache_malloc_zero mspFixed mem7 16).2 4096
      = 16 + ROUND8 sizeofSizeT :=
  C6_alloc_zeroed mspFixed mem7 16 4096 3 rfl (by decide) (by decide)

/-- C7 (amended): `pcache_memsize(p)` returns 0 when `p` is null, and
otherwise returns the value stored in the header at `p − header_size`
verbatim — provided that stored value fits in a C `int` (is below `2^31`);
a larger stored value is truncated by the `(int)` cast (see the
counterexample and C10). -/
theorem C7_memsize_contract (m : Mem) (p : Nat)
    (hp : p ≠ 0)
    (hfit : readSizeT m (p - ROUND8 sizeofSizeT) < 2 ^ 31) :
    pcache_memsize m 0 = 0 ∧
    pcache_memsize m p = (readSizeT m (p - ROUND8 sizeofSizeT) : Int) := by
  constructor
  · rfl
  · simp only [pcache_memsize, toInt32]
    rw [if_neg hp]
    have h32 : readSizeT m (p - ROUND8 sizeofSizeT) % 2 ^ 32
        = readSizeT m (p - ROUND8 sizeofSizeT) := Nat.mod_eq_of_lt (by omega)
    rw [h32, if_pos (by omega)]
    omega

/-- C7 as stated is false: the stored value is not returned verbatim when
it exceeds `INT_MAX`.  With the header slot of `p = 8` holding `2^31`, the
`(int)` cast makes `pcache_memsize` return a negative value instead of the
stored `2^31`. -/
theorem C7_counterexample :
    readSizeT (writeSizeT mem0 0 (2 ^ 31)) (8 - ROUND8 sizeofSizeT) = 2 ^ 31 ∧
    ¬ (pcache_memsize (writeSizeT mem0 0 (2 ^ 31)) 8
        = (readSizeT (writeSizeT mem0 0 (2 ^ 31)) (8 - ROUND8 sizeofSizeT) : Int)) := by
  decide

/-- Witness for C7 at a memory whose header slot for `p = 16` (at address
8) stores 1000: the null query gives 0 and the non-null query gives 1000. -/
theorem C7_memsize_contract_witness :
    pcache_memsize (writeSizeT mem0 8 1000) 0 = 0 ∧
    pcache_memsize (writeSizeT mem0 8 1000) 16
      = (readSizeT (writeSizeT mem0 8 1000) (16 - ROUND8 sizeofSizeT) : Int) :=
  C7_memsize_contract (writeSizeT mem0 8 1000) 16 (by decide) (by decide)

/-- C8: `pcache_free` on the null/failure sentinel is a no-op — no call
reaches the underlying `mspace_free` — and on any non-null pointer it
passes `p − header_size` to `mspace_free`; in particular for a pointer
produced by a successful `pcache_malloc` from base `base`, the address
passed down is exactly `base`, the base the underlying allocator
returned. -/
theorem C8_free_contract (p : Nat) (msp : MSpace) (m : Mem) (sz base : Nat)
    (hsucc : msp.alloc ((sz + ROUND8 sizeofSizeT) % 2 ^ 64) = some base) :
    pcache_free 0 = none ∧
    (p ≠ 0 → pcache_free p = some (p - ROUND8 sizeofSizeT)) ∧
    pcache_free (pcache_malloc msp m sz).1 = some base := by
  refine ⟨rfl, fun hp => ?_, ?_⟩
  · simp only [pcache_free]
    rw [if_neg hp]
  · rw [pcache_malloc_eq_some msp m sz base hsucc]
    simp only [pcache_free, ROUND8_sizeofSizeT]
    rw [if_neg (by omega), Nat.add_sub_cancel]

/-- Witness for C8 at `p = 42`, `sz = 16`, `base = 4096`: freeing null is a
no-op, freeing 42 passes 34 down, and freeing the pointer returned by the
allocation passes down exactly 4096. -/
theorem C8_free_contract_witness :
    pcache_free 0 = none ∧
    ((42 : Nat) ≠ 0 → pcache_free 42 = some (42 - ROUND8 sizeofSizeT)) ∧
    pcache_free (pcache_malloc mspFixed mem0 16).1 = some 4096 :=
  C8_free_contract 42 mspFixed mem0 16 4096 rfl

/-- C10: `pcache_memsize` returns the stored `size_t` header value cast to
a C `int` (`toInt32`).  For a successful allocation whose recorded size
`sz + header_size` fits in `int` the returned value equals the recorded
size exactly; when the recorded size exceeds `INT_MAX = 2^31 - 1`, the
returned value is the truncated (wrapped) 32-bit value, which differs from
the stored value. -/
theorem C10_memsize_int_cast (msp : MSpace) (m : Mem) (sz base : Nat)
    (hsucc : msp.alloc ((sz + ROUND8 sizeofSizeT) % 2 ^ 64) = some base)
    (hov : sz + ROUND8 sizeofSizeT < 2 ^ 64) :
    pcache_memsize (pcache_malloc msp m sz).2 (pcache_malloc msp m sz).1
        = toInt32 (sz + ROUND8 sizeofSizeT) ∧
    (sz + ROUND8 sizeofSizeT ≤ 2 ^ 31 - 1 →
      pcache_memsize (pcache_malloc msp m sz).2 (pcache_malloc msp m sz).1
        = ((sz + ROUND8 sizeofSizeT : Nat) : Int)) ∧
    (2 ^ 31 - 1 < sz + ROUND8 sizeofSizeT →
      pcache_memsize (pcache_malloc msp m sz).2 (pcache_malloc msp m sz).1
        ≠ ((sz + ROUND8 sizeofSizeT : Nat) : Int)) := by
  rw [pcache_malloc_eq_some msp m sz base hsucc]
  rw [ROUND8_sizeofSizeT] at hov ⊢
  have hmod : (sz + 8) % 2 ^ 64 = sz + 8 := Nat.mod_eq_of_lt hov
  rw [hmod]
  have hread : readSizeT (writeSizeT m base (sz + 8)) (base + 8 - 8) = sz + 8 := by
    rw [Nat.add_sub_cancel, readSizeT_writeSizeT]
    omega
  have hval : pcache_memsize (writeSizeT m base (sz + 8)) (base + 8)
      = toInt32 (sz + 8) := by
    simp only [pcache_memsize, ROUND8_sizeofSizeT]
    rw [if_neg (by omega), hread]
  refine ⟨hval, fun hfit => ?_, fun hbig => ?_⟩
  · rw [hval]
    simp only [toInt32]
    rw [if_pos (by omega)]
    omega
  · rw [hval]
    simp only [toInt32]
    split_ifs with hc
    · omega
    · omega

/-- Witness for C10 at `sz = 2^31` and at `sz = 16` (base 4096): the big
recorded size `2^31 + 8` comes back wrapped to a negative value, different
from the stored one, while the small recorded size 24 comes back exactly. -/
theorem C10_memsize_int_cast_witness :
    pcache_memsize (pcache_malloc mspFixed mem0 (2 ^ 31)).2
        (pcache_malloc mspFixed mem0 (2 ^ 31)).1
      = toInt32 (2 ^ 31 + ROUND8 sizeofSizeT) ∧
    pcache_memsize (pcache_malloc mspFixed mem0 (2 ^ 31)).2
        (pcache_malloc mspFixed mem0 (2 ^ 31)).1
      ≠ ((2 ^ 31 + ROUND8 sizeofSizeT : Nat) : Int) ∧
    pcache_memsize (pcache_malloc mspFixed mem0 16).2
        (pcache_malloc mspFixed mem0 16).1
      = ((16 + ROUND8 sizeofSizeT : Nat) : Int) := by
  obtain ⟨h1, -, h3⟩ :=
    C10_memsize_int_cast mspFixed mem0 (2 ^ 31) 4096 rfl (by decide)
  obtain ⟨-, h2, -⟩ :=
    C10_memsize_int_cast mspFixed mem0 16 4096 rfl (by decide)
  exact ⟨h1, h3 (by decide), h2 (by decide)⟩

/-! ### Concrete OS oracles for the arena witnesses -/

/-- An OS where `mmap` succeeds at base 65536 and `mprotect` succeeds. -/
def osOk : OS where
  mmapResult := fun _ => some 65536
  mprotectOk := fun _ _ => true

/-- An OS where the initial `mmap` fails (`MAP_FAILED`). -/
def osNoMem : OS where
  mmapResult := fun _ => none
  mprotectOk := fun _ _ => true

/-- An OS where `mmap` succeeds at base 65536 but `mprotect` fails. -/
def osProtFail : OS where
  mmapResult := fun _ => some 65536
  mprotectOk := fun _ _ => false

/-- An initially empty address space. -/
def vm0 : VMem where
  mapped := fun _ => false
  prot := fun _ => Prot.noAccess

/-- Witness for C3 at `sz = 4096`, base 65536: the call returns the usable
address 69632 = 65536 + 4096; the usable byte 70000 is mapped read/write;
the guard byte 66000 (inside the leading guard page) is mapped with no
access. -/
theorem C3_reserve_success_witness :
    (mmap_impl osOk vm0 4096).1 = some (65536 + pageSize) ∧
    (mmap_impl osOk vm0 4096).2.mapped 70000 = true ∧
    (mmap_impl osOk vm0 4096).2.prot 70000 = Prot.readWrite ∧
    (mmap_impl osOk vm0 4096).2.mapped 66000 = true ∧
    (mmap_impl osOk vm0 4096).2.prot 66000 = Prot.noAccess := by
  obtain ⟨h1, h2, -⟩ :=
    C3_reserve_success osOk vm0 4096 65536 70000 (by decide) rfl rfl
  obtain ⟨-, -, h3⟩ :=
    C3_reserve_success osOk vm0 4096 65536 66000 (by decide) rfl rfl
  obtain ⟨hu1, hu2⟩ := h2 (by norm_num [pageSize])
  obtain ⟨hg1, hg2⟩ := h3 (by norm_num [pageSize])
  exact ⟨h1, hu1, hu2, hg1, hg2⟩

/-- Witness for C4 at `sz = 4096`: with a failing `mmap` the state is
untouched and the sentinel returned; with a failing `mprotect` the sentinel
is returned, the address 70000 inside the attempted reservation ends up
unmapped, and the unrelated address 100 keeps its prior state. -/
theorem C4_reserve_failure_atomic_witness :
    mmap_impl osNoMem vm0 4096 = (none, vm0) ∧
    (mmap_impl osProtFail vm0 4096).1 = none ∧
    (mmap_impl osProtFail vm0 4096).2.mapped 70000 = false ∧
    (mmap_impl osProtFail vm0 4096).2.mapped 100 = vm0.mapped 100 := by
  refine ⟨(C4_reserve_failure_atomic osNoMem vm0 4096 0 0).1 rfl, ?_, ?_, ?_⟩
  · exact ((C4_reserve_failure_atomic osProtFail vm0 4096 65536 0).2 rfl rfl).1
  · exact ((C4_reserve_failure_atomic osProtFail vm0 4096 65536 70000).2
      rfl rfl).2.1 (by decide)
  · exact (((C4_reserve_failure_atomic osProtFail vm0 4096 65536 100).2
      rfl rfl).2.2 (by decide)).1

/-- Witness for C5 at `sz = 4096`, base 65536: after reserve then release
at the returned usable address, the byte 70000 inside the reservation is
unmapped again and the unrelated address 100 keeps its prior state. -/
theorem C5_release_roundtrip_witness :
    (mmap_impl osOk vm0 4096).1 = some (65536 + pageSize) ∧
    (munmap_impl (mmap_impl osOk vm0 4096).2 (65536 + pageSize) 4096).mapped
        70000 = false ∧
    (munmap_impl (mmap_impl osOk vm0 4096).2 (65536 + pageSize) 4096).mapped
        100 = vm0.mapped 100 := by
  obtain ⟨h1, h2, -⟩ :=
    C5_release_roundtrip osOk vm0 4096 65536 70000 (by decide) rfl rfl
  obtain ⟨-, -, h3⟩ :=
    C5_release_roundtrip osOk vm0 4096 65536 100 (by decide) rfl rfl
  exact ⟨h1, h2 (by norm_num [pageSize]), (h3 (by norm_num [pageSize])).1⟩
